import Mathlib

/-!
Shallow embedding of `opm/utility/ECLPvtCurveCollection.cpp` from
opm-flowdiagnostics-applications: unit-aware evaluation of PVT fluid-property
curves (formation volume factor, viscosity, saturated-state boundary) for the
oil and gas phases, with dispatch of per-axis unit converters.

Modelling choices:
* `ECLPhaseIndex` and `RawCurve` are C++ scoped enumerations with underlying
  integer values (`Aqua = 0, Liquid = 1, Vapour = 2` and
  `FVF = 0, Viscosity = 1, SaturatedState = 2`).  They are embedded as `ℤ` so
  that values outside the enumerator list (producible in C++ by a cast) are
  expressible, as the final conversion switch distinguishes them.
* The single-quantity unit converters (`Convert::Pressure()`,
  `Convert::DissolvedGasOilRatio()`, ...) live in
  `ECLPropertyUnitConversion.hpp`, outside this translation unit.  They are
  modelled abstractly: a `Cvt` assigns to each physical quantity and each pair
  of unit systems the pointwise map that `appliedTo` applies to every element
  of a column or value vector.
* The phase interpolants (`ECLPVT::Oil`, `ECLPVT::Gas`) are external
  collaborators; they are modelled as records of their three member functions
  used here.
* `double` is modelled as `ℚ`; the claims under study are about control flow
  and converter dispatch, not floating-point rounding.
* `std::vector::size_type` is 64-bit unsigned; the `static_cast` of the signed
  cell index in `isValidRequest` (and in `operator[]`) is modelled by
  `(i % 2^64).toNat`.
* The C++ member `convertToOutputUnits` can throw `std::invalid_argument`;
  it is embedded with an `Except String` result, `.error` marking the throw.
-/

namespace OpmPvt

/-- Physical quantities for which `ECLPropertyUnitConversion.hpp` provides a
single-quantity converter class. -/
inductive Quantity : Type
  | Pressure
  | DissolvedGasOilRatio
  | VaporisedOilGasRatio
  | OilFVF
  | GasFVF
  | Viscosity

/-- An opaque unit-system handle (`ECLUnits::UnitSystem`), identified by a tag. -/
abbrev UnitSystem := ℕ

/-- Abstract model of the converter family: `cv q a b` is the pointwise map of
`Convert::<q>().from(a).to(b).appliedTo(...)`. -/
abbrev Cvt := Quantity → UnitSystem → UnitSystem → ℚ → ℚ

/-- `Opm::FlowDiagnostics::Graph`: one sample series, a pair of columns
(abscissas `first`, ordinates `second`). -/
abbrev Graph := List ℚ × List ℚ

/-- `Opm::ECLPhaseIndex`, by its underlying integer value. -/
abbrev ECLPhaseIndex := ℤ

def ECLPhaseIndex.Aqua : ECLPhaseIndex := 0

def ECLPhaseIndex.Liquid : ECLPhaseIndex := 1

def ECLPhaseIndex.Vapour : ECLPhaseIndex := 2

/-- `Opm::ECLPVT::RawCurve`, by its underlying integer value. -/
abbrev RawCurve := ℤ

def RawCurve.FVF : RawCurve := 0

def RawCurve.Viscosity : RawCurve := 1

def RawCurve.SaturatedState : RawCurve := 2

/-- External phase interpolant (`ECLPVT::Oil` / `ECLPVT::Gas`): the three member
functions used by this translation unit.  `formationVolumeFactor` and
`viscosity` take the region index, the mixing-ratio samples and the pressure
samples, in that order. -/
structure PVTInterp where
  getPvtCurve : RawCurve → ℤ → List Graph
  formationVolumeFactor : ℤ → List ℚ → List ℚ → List ℚ
  viscosity : ℤ → List ℚ → List ℚ → List ℚ

/-- Anonymous-namespace helper `pvtnumVector`: the raw linearised `PVTNUM`
data, or a uniform tag of `1` for all cells when that data is absent. -/
def pvtnumVector (rawPvtnum : List ℤ) (numCells : ℕ) : List ℤ :=
  if rawPvtnum.isEmpty then List.replicate numCells 1 else rawPvtnum

/-- Anonymous-namespace helper `emptyFDGraph`: one series of zero samples. -/
def emptyFDGraph : List Graph := [([], [])]

/-- Anonymous-namespace helper `rawPvtCurve`: empty graph for a null
interpolant, otherwise the interpolant's tabulated curve. -/
def rawPvtCurve (pvt : Option PVTInterp) (curve : RawCurve) (regID : ℤ) :
    List Graph :=
  match pvt with
  | none => emptyFDGraph
  | some p => p.getPvtCurve curve regID

/-- Anonymous-namespace helper `gasProperty`.  An empty `Rv` vector is expanded
to all zeros of the pressure vector's length. -/
def gasProperty (pvt : Option PVTInterp) (property : RawCurve) (regID : ℤ)
    (Pg Rv : List ℚ) : List ℚ :=
  match pvt with
  | none => []
  | some p =>
    let rv := if Rv.isEmpty then List.replicate Pg.length 0 else Rv
    if property = RawCurve.FVF then
      p.formationVolumeFactor regID rv Pg
    else
      p.viscosity regID rv Pg

/-- Anonymous-namespace helper `oilProperty`.  An empty `Rs` vector is expanded
to all zeros of the pressure vector's length. -/
def oilProperty (pvt : Option PVTInterp) (property : RawCurve) (regID : ℤ)
    (Po Rs : List ℚ) : List ℚ :=
  match pvt with
  | none => []
  | some p =>
    let rs := if Rs.isEmpty then List.replicate Po.length 0 else Rs
    if property = RawCurve.FVF then
      p.formationVolumeFactor regID rs Po
    else
      p.viscosity regID rs Po

/-- Anonymous-namespace helper `convertCurve`: apply the x-converter to the
first column and the y-converter to the second column of every series. -/
def convertCurve (curves : List Graph) (cvrt_x cvrt_y : ℚ → ℚ) : List Graph :=
  curves.map (fun c => (c.1.map cvrt_x, c.2.map cvrt_y))

/-- Anonymous-namespace helper `convertFvfCurve`: oil FVF converts x as
pressure and y as oil FVF; gas FVF converts y as gas FVF and x as pressure
(immiscible, at most one series) or as vaporised oil/gas ratio (miscible). -/
def convertFvfCurve (cv : Cvt) (curve : List Graph) (phase : ECLPhaseIndex)
    (usysFrom usysTo : UnitSystem) : List Graph :=
  if phase = ECLPhaseIndex.Liquid then
    convertCurve curve (cv Quantity.Pressure usysFrom usysTo)
      (cv Quantity.OilFVF usysFrom usysTo)
  else if curve.length ≤ 1 then
    convertCurve curve (cv Quantity.Pressure usysFrom usysTo)
      (cv Quantity.GasFVF usysFrom usysTo)
  else
    convertCurve curve (cv Quantity.VaporisedOilGasRatio usysFrom usysTo)
      (cv Quantity.GasFVF usysFrom usysTo)

/-- Anonymous-namespace helper `convertViscosityCurve`: y is always viscosity;
x is pressure for oil or immiscible gas (at most one series), and vaporised
oil/gas ratio for miscible gas. -/
def convertViscosityCurve (cv : Cvt) (curve : List Graph)
    (phase : ECLPhaseIndex) (usysFrom usysTo : UnitSystem) : List Graph :=
  if phase = ECLPhaseIndex.Liquid ∨ curve.length ≤ 1 then
    convertCurve curve (cv Quantity.Pressure usysFrom usysTo)
      (cv Quantity.Viscosity usysFrom usysTo)
  else
    convertCurve curve (cv Quantity.VaporisedOilGasRatio usysFrom usysTo)
      (cv Quantity.Viscosity usysFrom usysTo)

/-- Anonymous-namespace helper `convertSatStateCurve`: x is always pressure;
y is dissolved gas/oil ratio for oil and vaporised oil/gas ratio for gas. -/
def convertSatStateCurve (cv : Cvt) (curve : List Graph)
    (phase : ECLPhaseIndex) (usysFrom usysTo : UnitSystem) : List Graph :=
  if phase = ECLPhaseIndex.Liquid then
    convertCurve curve (cv Quantity.Pressure usysFrom usysTo)
      (cv Quantity.DissolvedGasOilRatio usysFrom usysTo)
  else
    convertCurve curve (cv Quantity.Pressure usysFrom usysTo)
      (cv Quantity.VaporisedOilGasRatio usysFrom usysTo)

/-- State of `Opm::ECLPVT::ECLPvtCurveCollection`. -/
structure ECLPvtCurveCollection where
  pvtnum_ : List ℤ
  gas_ : Option PVTInterp
  oil_ : Option PVTInterp
  usys_native_ : UnitSystem
  usys_internal_ : UnitSystem
  usys_output_ : Option UnitSystem

namespace ECLPvtCurveCollection

/-- `setOutputUnits`: replace the output unit system, leaving all other state
untouched. -/
def setOutputUnits (c : ECLPvtCurveCollection) (usys : Option UnitSystem) :
    ECLPvtCurveCollection :=
  { c with usys_output_ := usys }

/-- `isValidRequest`: the phase must be `Liquid` or `Vapour`, and the signed
cell index, converted to the vector's unsigned size type (modulo `2^64`), must
be below the cell count. -/
def isValidRequest (c : ECLPvtCurveCollection) (phase : ECLPhaseIndex)
    (activeCell : ℤ) : Bool :=
  if ¬ (phase = ECLPhaseIndex.Liquid ∨ phase = ECLPhaseIndex.Vapour) then
    false
  else
    decide ((activeCell % (2 : ℤ) ^ 64).toNat < c.pvtnum_.length)

/-- The region index `this->pvtnum_[activeCell] - 1` computed by each public
operation (`PVTNUM` is a one-based region tag).  `std::vector::operator[]`
converts the signed index to the unsigned size type, modelled by
`(activeCell % 2^64).toNat`; callers evaluate it only after `isValidRequest`
has established that this index is in bounds, so the `getD` default is never
reached on those paths. -/
def regionID (c : ECLPvtCurveCollection) (activeCell : ℤ) : ℤ :=
  c.pvtnum_.getD (activeCell % (2 : ℤ) ^ 64).toNat 0 - 1

/-- `convertToOutputUnits`: identity when no output unit system is configured;
otherwise dispatch on the curve kind, throwing (`.error`) for a kind outside
the three enumerators. -/
def convertToOutputUnits (c : ECLPvtCurveCollection) (cv : Cvt)
    (graph : List Graph) (curve : RawCurve) (phase : ECLPhaseIndex) :
    Except String (List Graph) :=
  match c.usys_output_ with
  | none => .ok graph
  | some usysOut =>
    if curve = RawCurve.FVF then
      .ok (convertFvfCurve cv graph phase c.usys_internal_ usysOut)
    else if curve = RawCurve.Viscosity then
      .ok (convertViscosityCurve cv graph phase c.usys_internal_ usysOut)
    else if curve = RawCurve.SaturatedState then
      .ok (convertSatStateCurve cv graph phase c.usys_internal_ usysOut)
    else
      .error "Internal Logic Error"

/-- `getPvtCurve`: empty graph on an invalid request, otherwise the raw curve
of the phase's interpolant converted to the output unit system. -/
def getPvtCurve (c : ECLPvtCurveCollection) (cv : Cvt) (curve : RawCurve)
    (phase : ECLPhaseIndex) (activeCell : ℤ) : Except String (List Graph) :=
  if ¬ c.isValidRequest phase activeCell then
    .ok emptyFDGraph
  else
    let regID := c.regionID activeCell
    if phase = ECLPhaseIndex.Liquid then
      c.convertToOutputUnits cv (rawPvtCurve c.oil_ curve regID) curve phase
    else
      c.convertToOutputUnits cv (rawPvtCurve c.gas_ curve regID) curve phase

/-- `getDynamicPropertySI`: empty on an invalid request or a `SaturatedState`
request, otherwise the phase interpolant's property values at the given SI
samples. -/
def getDynamicPropertySI (c : ECLPvtCurveCollection) (property : RawCurve)
    (phase : ECLPhaseIndex) (activeCell : ℤ)
    (phasePress mixRatio : List ℚ) : List ℚ :=
  if ¬ c.isValidRequest phase activeCell ∨ property = RawCurve.SaturatedState then
    []
  else
    let regID := c.regionID activeCell
    if phase = ECLPhaseIndex.Liquid then
      oilProperty c.oil_ property regID phasePress mixRatio
    else
      gasProperty c.gas_ property regID phasePress mixRatio

/-- `getDynamicPropertyNative`: (1) convert inputs from native to internal
units, (2) evaluate in SI via `getDynamicPropertySI`, (3) convert the result
to the output unit system when one is configured. -/
def getDynamicPropertyNative (c : ECLPvtCurveCollection) (cv : Cvt)
    (property : RawCurve) (phase : ECLPhaseIndex) (activeCell : ℤ)
    (phasePress mixRatio : List ℚ) : List ℚ :=
  if ¬ c.isValidRequest phase activeCell ∨ property = RawCurve.SaturatedState then
    []
  else
    let press := phasePress.map
      (cv Quantity.Pressure c.usys_native_ c.usys_internal_)
    let mix :=
      if phase = ECLPhaseIndex.Liquid then
        mixRatio.map
          (cv Quantity.DissolvedGasOilRatio c.usys_native_ c.usys_internal_)
      else
        mixRatio.map
          (cv Quantity.VaporisedOilGasRatio c.usys_native_ c.usys_internal_)
    let prop := c.getDynamicPropertySI property phase activeCell press mix
    match c.usys_output_ with
    | none => prop
    | some usysOut =>
      if property = RawCurve.Viscosity then
        prop.map (cv Quantity.Viscosity c.usys_internal_ usysOut)
      else if phase = ECLPhaseIndex.Vapour then
        prop.map (cv Quantity.GasFVF c.usys_internal_ usysOut)
      else
        prop.map (cv Quantity.OilFVF c.usys_internal_ usysOut)

end ECLPvtCurveCollection

/-! Concrete collaborator instances, used by the closed witness theorems. -/

/-- A concrete interpolant whose outputs depend visibly on every argument. -/
def sampleInterp : PVTInterp where
  getPvtCurve := fun curve regID => [([(curve : ℚ)], [(regID : ℚ)])]
  formationVolumeFactor := fun _ r press => press ++ r
  viscosity := fun _ r press => r ++ press

/-- A concrete converter family: a distinct scale factor per quantity. -/
def sampleCvt : Cvt := fun q _ _ x =>
  match q with
  | .Pressure => 2 * x
  | .DissolvedGasOilRatio => 3 * x
  | .VaporisedOilGasRatio => 5 * x
  | .OilFVF => 7 * x
  | .GasFVF => 11 * x
  | .Viscosity => 13 * x

/-- A concrete three-cell collection with both interpolants present and an
output unit system configured. -/
def sampleColl : ECLPvtCurveCollection where
  pvtnum_ := [1, 1, 2]
  gas_ := some sampleInterp
  oil_ := some sampleInterp
  usys_native_ := 0
  usys_internal_ := 1
  usys_output_ := some 2

/-- A concrete collection whose oil interpolant is absent. -/
def sampleCollNoOil : ECLPvtCurveCollection :=
  { sampleColl with oil_ := none }

/-! Helper lemmas shared by the claim theorems. -/

/-- Converting the empty one-series graph leaves it unchanged. -/
theorem convertCurve_empty (fx fy : ℚ → ℚ) :
    convertCurve emptyFDGraph fx fy = emptyFDGraph := rfl

theorem convertFvfCurve_empty (cv : Cvt) (phase : ECLPhaseIndex)
    (a b : UnitSystem) : convertFvfCurve cv emptyFDGraph phase a b = emptyFDGraph := by
  unfold convertFvfCurve
  split
  · rfl
  · split <;> rfl

theorem convertViscosityCurve_empty (cv : Cvt) (phase : ECLPhaseIndex)
    (a b : UnitSystem) :
    convertViscosityCurve cv emptyFDGraph phase a b = emptyFDGraph := by
  unfold convertViscosityCurve
  split <;> rfl

theorem convertSatStateCurve_empty (cv : Cvt) (phase : ECLPhaseIndex)
    (a b : UnitSystem) :
    convertSatStateCurve cv emptyFDGraph phase a b = emptyFDGraph := by
  unfold convertSatStateCurve
  split <;> rfl

/-- For any of the three genuine curve kinds, converting the empty one-series
graph yields the empty one-series graph, whatever the output unit system. -/
theorem convertToOutputUnits_empty (c : ECLPvtCurveCollection) (cv : Cvt)
    (curve : RawCurve) (phase : ECLPhaseIndex)
    (hcurve : curve = RawCurve.FVF ∨ curve = RawCurve.Viscosity ∨
      curve = RawCurve.SaturatedState) :
    c.convertToOutputUnits cv emptyFDGraph curve phase = .ok emptyFDGraph := by
  unfold ECLPvtCurveCollection.convertToOutputUnits
  cases c.usys_output_ with
  | none => rfl
  | some u =>
    rcases hcurve with h | h | h <;> subst h <;>
      simp [RawCurve.FVF, RawCurve.Viscosity, RawCurve.SaturatedState,
        convertFvfCurve_empty, convertViscosityCurve_empty,
        convertSatStateCurve_empty]

/-- A bad phase, or a cell index whose unsigned cast reaches the cell count,
is rejected by `isValidRequest`. -/
theorem isValidRequest_false_of (c : ECLPvtCurveCollection)
    (phase : ECLPhaseIndex) (activeCell : ℤ)
    (h : ¬ (phase = ECLPhaseIndex.Liquid ∨ phase = ECLPhaseIndex.Vapour) ∨
      c.pvtnum_.length ≤ (activeCell % (2 : ℤ) ^ 64).toNat) :
    c.isValidRequest phase activeCell = false := by
  unfold ECLPvtCurveCollection.isValidRequest
  rcases h with h | h
  · rw [if_pos h]
  · by_cases hp : phase = ECLPhaseIndex.Liquid ∨ phase = ECLPhaseIndex.Vapour
    · rw [if_neg (not_not_intro hp)]
      exact decide_eq_false (by omega)
    · rw [if_pos hp]

theorem getPvtCurve_invalid (c : ECLPvtCurveCollection) (cv : Cvt)
    (curve : RawCurve) (phase : ECLPhaseIndex) (activeCell : ℤ)
    (hval : c.isValidRequest phase activeCell = false) :
    c.getPvtCurve cv curve phase activeCell = .ok emptyFDGraph := by
  simp [ECLPvtCurveCollection.getPvtCurve, hval]

theorem getDynamicPropertySI_invalid (c : ECLPvtCurveCollection)
    (property : RawCurve) (phase : ECLPhaseIndex) (activeCell : ℤ)
    (pp mr : List ℚ) (hval : c.isValidRequest phase activeCell = false) :
    c.getDynamicPropertySI property phase activeCell pp mr = [] := by
  simp [ECLPvtCurveCollection.getDynamicPropertySI, hval]

theorem getDynamicPropertyNative_invalid (c : ECLPvtCurveCollection) (cv : Cvt)
    (property : RawCurve) (phase : ECLPhaseIndex) (activeCell : ℤ)
    (pp mr : List ℚ) (hval : c.isValidRequest phase activeCell = false) :
    c.getDynamicPropertyNative cv property phase activeCell pp mr = [] := by
  simp [ECLPvtCurveCollection.getDynamicPropertyNative, hval]

theorem getDynamicPropertySI_oil_none (c : ECLPvtCurveCollection)
    (property : RawCurve) (activeCell : ℤ) (pp mr : List ℚ)
    (hoil : c.oil_ = none) :
    c.getDynamicPropertySI property ECLPhaseIndex.Liquid activeCell pp mr = [] := by
  simp only [ECLPvtCurveCollection.getDynamicPropertySI, hoil]
  split
  · rfl
  · rw [if_pos trivial]
    rfl

theorem getDynamicPropertySI_gas_none (c : ECLPvtCurveCollection)
    (property : RawCurve) (activeCell : ℤ) (pp mr : List ℚ)
    (hgas : c.gas_ = none) :
    c.getDynamicPropertySI property ECLPhaseIndex.Vapour activeCell pp mr = [] := by
  simp only [ECLPvtCurveCollection.getDynamicPropertySI, hgas]
  split
  · rfl
  · rw [if_neg (by decide)]
    rfl

theorem getDynamicPropertyNative_oil_none (c : ECLPvtCurveCollection) (cv : Cvt)
    (property : RawCurve) (activeCell : ℤ) (pp mr : List ℚ)
    (hoil : c.oil_ = none) :
    c.getDynamicPropertyNative cv property ECLPhaseIndex.Liquid activeCell
      pp mr = [] := by
  simp only [ECLPvtCurveCollection.getDynamicPropertyNative]
  split
  · rfl
  · rw [getDynamicPropertySI_oil_none c property activeCell _ _ hoil]
    cases c.usys_output_ <;> simp

theorem getDynamicPropertyNative_gas_none (c : ECLPvtCurveCollection) (cv : Cvt)
    (property : RawCurve) (activeCell : ℤ) (pp mr : List ℚ)
    (hgas : c.gas_ = none) :
    c.getDynamicPropertyNative cv property ECLPhaseIndex.Vapour activeCell
      pp mr = [] := by
  simp only [ECLPvtCurveCollection.getDynamicPropertyNative]
  split
  · rfl
  · rw [getDynamicPropertySI_gas_none c property activeCell _ _ hgas]
    cases c.usys_output_ <;> simp

theorem getPvtCurve_oil_none (c : ECLPvtCurveCollection) (cv : Cvt)
    (curve : RawCurve) (activeCell : ℤ) (hoil : c.oil_ = none)
    (hcurve : curve = RawCurve.FVF ∨ curve = RawCurve.Viscosity ∨
      curve = RawCurve.SaturatedState) :
    c.getPvtCurve cv curve ECLPhaseIndex.Liquid activeCell =
      .ok emptyFDGraph := by
  simp only [ECLPvtCurveCollection.getPvtCurve, hoil]
  split
  · rfl
  · rw [if_pos trivial]
    exact convertToOutputUnits_empty c cv curve ECLPhaseIndex.Liquid hcurve

theorem getPvtCurve_gas_none (c : ECLPvtCurveCollection) (cv : Cvt)
    (curve : RawCurve) (activeCell : ℤ) (hgas : c.gas_ = none)
    (hcurve : curve = RawCurve.FVF ∨ curve = RawCurve.Viscosity ∨
      curve = RawCurve.SaturatedState) :
    c.getPvtCurve cv curve ECLPhaseIndex.Vapour activeCell =
      .ok emptyFDGraph := by
  simp only [ECLPvtCurveCollection.getPvtCurve, hgas]
  split
  · rfl
  · rw [if_neg (by decide)]
    exact convertToOutputUnits_empty c cv curve ECLPhaseIndex.Vapour hcurve

/-- Claim C1: for a gas (Vapour) FVF or viscosity curve the x-axis converter is
chosen from the series count — pressure with at most one series, vaporised
oil/gas ratio with two or more — while the y axis uses the gas-FVF converter
(FVF) or the viscosity converter (viscosity); for the Liquid phase the x axis
is always converted as pressure, for curves of every shape. -/
theorem C1_axis_dispatch (cv : Cvt) (curve : List Graph)
    (usysFrom usysTo : UnitSystem) :
    (curve.length ≤ 1 →
      convertFvfCurve cv curve ECLPhaseIndex.Vapour usysFrom usysTo =
        convertCurve curve (cv Quantity.Pressure usysFrom usysTo)
          (cv Quantity.GasFVF usysFrom usysTo)) ∧
    (1 < curve.length →
      convertFvfCurve cv curve ECLPhaseIndex.Vapour usysFrom usysTo =
        convertCurve curve (cv Quantity.VaporisedOilGasRatio usysFrom usysTo)
          (cv Quantity.GasFVF usysFrom usysTo)) ∧
    (curve.length ≤ 1 →
      convertViscosityCurve cv curve ECLPhaseIndex.Vapour usysFrom usysTo =
        convertCurve curve (cv Quantity.Pressure usysFrom usysTo)
          (cv Quantity.Viscosity usysFrom usysTo)) ∧
    (1 < curve.length →
      convertViscosityCurve cv curve ECLPhaseIndex.Vapour usysFrom usysTo =
        convertCurve curve (cv Quantity.VaporisedOilGasRatio usysFrom usysTo)
          (cv Quantity.Viscosity usysFrom usysTo)) ∧
    (convertFvfCurve cv curve ECLPhaseIndex.Liquid usysFrom usysTo =
      convertCurve curve (cv Quantity.Pressure usysFrom usysTo)
        (cv Quantity.OilFVF usysFrom usysTo)) ∧
    (convertViscosityCurve cv curve ECLPhaseIndex.Liquid usysFrom usysTo =
      convertCurve curve (cv Quantity.Pressure usysFrom usysTo)
        (cv Quantity.Viscosity usysFrom usysTo)) := by
  refine ⟨?_, ?_, ?_, ?_, ?_, ?_⟩
  · intro h
    unfold convertFvfCurve
    rw [if_neg (by decide), if_pos h]
  · intro h
    unfold convertFvfCurve
    rw [if_neg (by decide), if_neg (by omega)]
  · intro h
    unfold convertViscosityCurve
    rw [if_pos (Or.inr h)]
  · intro h
    unfold convertViscosityCurve
    refine if_neg ?_
    rintro (h2 | h2)
    · exact absurd h2 (by decide)
    · omega
  · unfold convertFvfCurve
    rw [if_pos rfl]
  · unfold convertViscosityCurve
    rw [if_pos (Or.inl rfl)]

/-- Closed witness for C1, at a concrete two-series (miscible) gas FVF curve. -/
theorem C1_axis_dispatch_witness :
    convertFvfCurve sampleCvt [([1], [2]), ([3], [4])] ECLPhaseIndex.Vapour 1 2 =
      convertCurve [([1], [2]), ([3], [4])]
        (sampleCvt Quantity.VaporisedOilGasRatio 1 2)
        (sampleCvt Quantity.GasFVF 1 2) :=
  (C1_axis_dispatch sampleCvt [([1], [2]), ([3], [4])] 1 2).2.1 (by decide)

/-- Claim C4: for every saturated-state curve, of any series count, the x axis
is converted with the pressure converter, and the y axis with the dissolved
gas/oil ratio converter for Liquid and the vaporised oil/gas ratio converter
for Vapour. -/
theorem C4_satstate_axis_dispatch (cv : Cvt) (curve : List Graph)
    (usysFrom usysTo : UnitSystem) :
    convertSatStateCurve cv curve ECLPhaseIndex.Liquid usysFrom usysTo =
      convertCurve curve (cv Quantity.Pressure usysFrom usysTo)
        (cv Quantity.DissolvedGasOilRatio usysFrom usysTo) ∧
    convertSatStateCurve cv curve ECLPhaseIndex.Vapour usysFrom usysTo =
      convertCurve curve (cv Quantity.Pressure usysFrom usysTo)
        (cv Quantity.VaporisedOilGasRatio usysFrom usysTo) := by
  constructor
  · unfold convertSatStateCurve
    rw [if_pos rfl]
  · unfold convertSatStateCurve
    rw [if_neg (by decide)]

/-- Claim C2: for every valid request (supported phase, in-range cell, FVF or
viscosity property), `getDynamicPropertyNative` equals the three-stage
pipeline: convert the pressure samples with the pressure converter and the
mixing-ratio samples with the phase-appropriate ratio converter from native to
internal units, evaluate via `getDynamicPropertySI`, then — only when an
output unit system is set — convert the result with the viscosity converter
(viscosity), the gas-FVF converter (Vapour FVF) or the oil-FVF converter
(Liquid FVF). -/
theorem C2_native_pipeline (c : ECLPvtCurveCollection) (cv : Cvt)
    (property : RawCurve) (phase : ECLPhaseIndex) (activeCell : ℤ)
    (phasePress mixRatio : List ℚ)
    (hvalid : c.isValidRequest phase activeCell = true)
    (hprop : property = RawCurve.FVF ∨ property = RawCurve.Viscosity) :
    c.getDynamicPropertyNative cv property phase activeCell phasePress
      mixRatio =
      (let press := phasePress.map
         (cv Quantity.Pressure c.usys_native_ c.usys_internal_)
       let mix :=
         if phase = ECLPhaseIndex.Liquid then
           mixRatio.map
             (cv Quantity.DissolvedGasOilRatio c.usys_native_ c.usys_internal_)
         else
           mixRatio.map
             (cv Quantity.VaporisedOilGasRatio c.usys_native_ c.usys_internal_)
       let prop := c.getDynamicPropertySI property phase activeCell press mix
       match c.usys_output_ with
       | none => prop
       | some usysOut =>
         if property = RawCurve.Viscosity then
           prop.map (cv Quantity.Viscosity c.usys_internal_ usysOut)
         else if phase = ECLPhaseIndex.Vapour then
           prop.map (cv Quantity.GasFVF c.usys_internal_ usysOut)
         else
           prop.map (cv Quantity.OilFVF c.usys_internal_ usysOut)) := by
  have hg : ¬ (¬ c.isValidRequest phase activeCell = true ∨
      property = RawCurve.SaturatedState) := by
    rintro (h2 | h2)
    · exact h2 hvalid
    · rcases hprop with h | h <;> subst h <;> exact absurd h2 (by decide)
  unfold ECLPvtCurveCollection.getDynamicPropertyNative
  rw [if_neg hg]

/-- Closed witness for C2: an oil FVF request on the sample collection, with
native pressure `5` scaled by `2` into SI, the empty mixing ratio expanded to
`[0]`, the interpolant returning pressure-then-ratio samples, and the oil-FVF
output scale `7` applied. -/
theorem C2_native_pipeline_witness :
    sampleColl.getDynamicPropertyNative sampleCvt RawCurve.FVF
      ECLPhaseIndex.Liquid 0 [5] [] = [70, 0] := by
  have h := C2_native_pipeline sampleColl sampleCvt RawCurve.FVF
    ECLPhaseIndex.Liquid 0 [5] [] (by decide) (Or.inl rfl)
  refine h.trans ?_
  norm_num [sampleColl, sampleCvt, sampleInterp, RawCurve.FVF,
    RawCurve.Viscosity, ECLPhaseIndex.Liquid, ECLPhaseIndex.Vapour,
    ECLPvtCurveCollection.getDynamicPropertySI,
    ECLPvtCurveCollection.isValidRequest, ECLPvtCurveCollection.regionID,
    oilProperty, RawCurve.SaturatedState, List.replicate]

/-- Claim C3: invalid-but-expected requests — a phase other than Liquid or
Vapour, a cell index whose unsigned cast is not below the cell count, a
dynamic-property request for `SaturatedState`, or a query against an absent
phase interpolant — make every public operation return an empty result
(`getPvtCurve` a single series of zero samples, the dynamic-property
operations an empty array), never an error. -/
theorem C3_invalid_requests_empty (c : ECLPvtCurveCollection) (cv : Cvt)
    (curve : RawCurve) (phase : ECLPhaseIndex) (activeCell : ℤ)
    (phasePress mixRatio : List ℚ) :
    (¬ (phase = ECLPhaseIndex.Liquid ∨ phase = ECLPhaseIndex.Vapour) ∨
        c.pvtnum_.length ≤ (activeCell % (2 : ℤ) ^ 64).toNat →
      c.getPvtCurve cv curve phase activeCell = .ok emptyFDGraph ∧
      c.getDynamicPropertySI curve phase activeCell phasePress mixRatio = [] ∧
      c.getDynamicPropertyNative cv curve phase activeCell phasePress
        mixRatio = []) ∧
    (c.getDynamicPropertySI RawCurve.SaturatedState phase activeCell phasePress
        mixRatio = [] ∧
      c.getDynamicPropertyNative cv RawCurve.SaturatedState phase activeCell
        phasePress mixRatio = []) ∧
    (phase = ECLPhaseIndex.Liquid → c.oil_ = none →
      c.getDynamicPropertySI curve phase activeCell phasePress mixRatio = [] ∧
      c.getDynamicPropertyNative cv curve phase activeCell phasePress
        mixRatio = [] ∧
      (curve = RawCurve.FVF ∨ curve = RawCurve.Viscosity ∨
          curve = RawCurve.SaturatedState →
        c.getPvtCurve cv curve phase activeCell = .ok emptyFDGraph)) ∧
    (phase = ECLPhaseIndex.Vapour → c.gas_ = none →
      c.getDynamicPropertySI curve phase activeCell phasePress mixRatio = [] ∧
      c.getDynamicPropertyNative cv curve phase activeCell phasePress
        mixRatio = [] ∧
      (curve = RawCurve.FVF ∨ curve = RawCurve.Viscosity ∨
          curve = RawCurve.SaturatedState →
        c.getPvtCurve cv curve phase activeCell = .ok emptyFDGraph)) := by
  refine ⟨fun hbad => ?_, ⟨?_, ?_⟩, fun hphase hoil => ?_, fun hphase hgas => ?_⟩
  · have hval := isValidRequest_false_of c phase activeCell hbad
    exact ⟨getPvtCurve_invalid c cv curve phase activeCell hval,
      getDynamicPropertySI_invalid c curve phase activeCell phasePress
        mixRatio hval,
      getDynamicPropertyNative_invalid c cv curve phase activeCell phasePress
        mixRatio hval⟩
  · simp [ECLPvtCurveCollection.getDynamicPropertySI]
  · simp [ECLPvtCurveCollection.getDynamicPropertyNative]
  · subst hphase
    exact ⟨getDynamicPropertySI_oil_none c curve activeCell phasePress
        mixRatio hoil,
      getDynamicPropertyNative_oil_none c cv curve activeCell phasePress
        mixRatio hoil,
      fun hcurve => getPvtCurve_oil_none c cv curve activeCell hoil hcurve⟩
  · subst hphase
    exact ⟨getDynamicPropertySI_gas_none c curve activeCell phasePress
        mixRatio hgas,
      getDynamicPropertyNative_gas_none c cv curve activeCell phasePress
        mixRatio hgas,
      fun hcurve => getPvtCurve_gas_none c cv curve activeCell hgas hcurve⟩

/-- Closed witness for C3: a request against the sample collection with the
oil interpolant absent, and requests with a bad phase and an out-of-range
cell, each yielding the empty result. -/
theorem C3_invalid_requests_empty_witness :
    sampleCollNoOil.getDynamicPropertySI RawCurve.FVF ECLPhaseIndex.Liquid 0
        [5] [] = [] ∧
    sampleCollNoOil.getPvtCurve sampleCvt RawCurve.FVF ECLPhaseIndex.Liquid 0 =
      .ok emptyFDGraph ∧
    sampleColl.getPvtCurve sampleCvt RawCurve.FVF ECLPhaseIndex.Aqua 0 =
      .ok emptyFDGraph ∧
    sampleColl.getDynamicPropertySI RawCurve.FVF ECLPhaseIndex.Liquid 5 [] [] =
      [] ∧
    sampleColl.getDynamicPropertySI RawCurve.SaturatedState
      ECLPhaseIndex.Liquid 0 [5] [] = [] := by
  refine ⟨?_, ?_, ?_, ?_, ?_⟩
  · exact ((C3_invalid_requests_empty sampleCollNoOil sampleCvt RawCurve.FVF
      ECLPhaseIndex.Liquid 0 [5] []).2.2.1 rfl rfl).1
  · exact ((C3_invalid_requests_empty sampleCollNoOil sampleCvt RawCurve.FVF
      ECLPhaseIndex.Liquid 0 [5] []).2.2.1 rfl rfl).2.2 (Or.inl rfl)
  · exact ((C3_invalid_requests_empty sampleColl sampleCvt RawCurve.FVF
      ECLPhaseIndex.Aqua 0 [5] []).1 (Or.inl (by decide))).1
  · exact ((C3_invalid_requests_empty sampleColl sampleCvt RawCurve.FVF
      ECLPhaseIndex.Liquid 5 [] []).1 (Or.inr (by decide))).2.1
  · exact (C3_invalid_requests_empty sampleColl sampleCvt RawCurve.FVF
      ECLPhaseIndex.Liquid 0 [5] []).2.1.1

/-- Claim C5: `setOutputUnits` replaces only the output unit system, leaving
the region map, the interpolants and the native/internal unit systems
unchanged; and whenever no output unit system is configured, `getPvtCurve`
returns the raw interpolant curve unconverted (internal SI). -/
theorem C5_setOutputUnits_frame (c : ECLPvtCurveCollection) (cv : Cvt)
    (u : Option UnitSystem) (curve : RawCurve) (phase : ECLPhaseIndex)
    (activeCell : ℤ) :
    ((c.setOutputUnits u).pvtnum_ = c.pvtnum_ ∧
      (c.setOutputUnits u).gas_ = c.gas_ ∧
      (c.setOutputUnits u).oil_ = c.oil_ ∧
      (c.setOutputUnits u).usys_native_ = c.usys_native_ ∧
      (c.setOutputUnits u).usys_internal_ = c.usys_internal_ ∧
      (c.setOutputUnits u).usys_output_ = u) ∧
    (c.usys_output_ = none →
      c.getPvtCurve cv curve phase activeCell =
        .ok (if c.isValidRequest phase activeCell then
          (if phase = ECLPhaseIndex.Liquid then
            rawPvtCurve c.oil_ curve (c.regionID activeCell)
          else
            rawPvtCurve c.gas_ curve (c.regionID activeCell))
        else emptyFDGraph)) := by
  refine ⟨⟨rfl, rfl, rfl, rfl, rfl, rfl⟩, fun hout => ?_⟩
  by_cases hval : c.isValidRequest phase activeCell = true
  · by_cases hph : phase = ECLPhaseIndex.Liquid
    · subst hph
      simp [ECLPvtCurveCollection.getPvtCurve,
        ECLPvtCurveCollection.convertToOutputUnits, hout, hval]
    · simp [ECLPvtCurveCollection.getPvtCurve,
        ECLPvtCurveCollection.convertToOutputUnits, hout, hval, hph]
  · have hval2 : c.isValidRequest phase activeCell = false := by
      simpa using hval
    simp [ECLPvtCurveCollection.getPvtCurve, hval2]

/-- Closed witness for C5: with the output unit system cleared, `getPvtCurve`
returns the raw oil curve of the sample collection unconverted. -/
theorem C5_setOutputUnits_frame_witness :
    (sampleColl.setOutputUnits none).getPvtCurve sampleCvt RawCurve.FVF
      ECLPhaseIndex.Liquid 0 =
      .ok (if (sampleColl.setOutputUnits none).isValidRequest
            ECLPhaseIndex.Liquid 0 then
        (if ECLPhaseIndex.Liquid = ECLPhaseIndex.Liquid then
          rawPvtCurve (sampleColl.setOutputUnits none).oil_ RawCurve.FVF
            ((sampleColl.setOutputUnits none).regionID 0)
        else
          rawPvtCurve (sampleColl.setOutputUnits none).gas_ RawCurve.FVF
            ((sampleColl.setOutputUnits none).regionID 0))
      else emptyFDGraph) :=
  (C5_setOutputUnits_frame (sampleColl.setOutputUnits none) sampleCvt none
    RawCurve.FVF ECLPhaseIndex.Liquid 0).2 rfl

theorem gasProperty_empty_mix (pvt : Option PVTInterp) (property : RawCurve)
    (regID : ℤ) (Pg : List ℚ) :
    gasProperty pvt property regID Pg [] =
      gasProperty pvt property regID Pg (List.replicate Pg.length 0) := by
  cases pvt with
  | none => rfl
  | some p => cases Pg <;> simp [gasProperty, List.replicate_succ]

theorem oilProperty_empty_mix (pvt : Option PVTInterp) (property : RawCurve)
    (regID : ℤ) (Po : List ℚ) :
    oilProperty pvt property regID Po [] =
      oilProperty pvt property regID Po (List.replicate Po.length 0) := by
  cases pvt with
  | none => rfl
  | some p => cases Po <;> simp [oilProperty, List.replicate_succ]

theorem getDynamicPropertySI_empty_mix (c : ECLPvtCurveCollection)
    (property : RawCurve) (phase : ECLPhaseIndex) (activeCell : ℤ)
    (pp mr : List ℚ) (hmr : mr = List.replicate pp.length 0) :
    c.getDynamicPropertySI property phase activeCell pp [] =
      c.getDynamicPropertySI property phase activeCell pp mr := by
  subst hmr
  simp only [ECLPvtCurveCollection.getDynamicPropertySI]
  split
  · rfl
  · split
    · exact oilProperty_empty_mix c.oil_ property (c.regionID activeCell) pp
    · exact gasProperty_empty_mix c.gas_ property (c.regionID activeCell) pp

/-- Claim C6: calling the dynamic-property operations with an empty
mixing-ratio array gives the same result as an all-zero array of the pressure
array's length.  For the native-unit variant this uses that the native-to-SI
mixing-ratio conversions fix zero, which holds of the pure scale-factor
conversions the spec describes. -/
theorem C6_empty_mix_ratio (c : ECLPvtCurveCollection) (cv : Cvt)
    (property : RawCurve) (phase : ECLPhaseIndex) (activeCell : ℤ)
    (phasePress : List ℚ)
    (hz1 : cv Quantity.DissolvedGasOilRatio c.usys_native_
      c.usys_internal_ 0 = 0)
    (hz2 : cv Quantity.VaporisedOilGasRatio c.usys_native_
      c.usys_internal_ 0 = 0) :
    c.getDynamicPropertySI property phase activeCell phasePress [] =
      c.getDynamicPropertySI property phase activeCell phasePress
        (List.replicate phasePress.length 0) ∧
    c.getDynamicPropertyNative cv property phase activeCell phasePress [] =
      c.getDynamicPropertyNative cv property phase activeCell phasePress
        (List.replicate phasePress.length 0) := by
  constructor
  · exact getDynamicPropertySI_empty_mix c property phase activeCell
      phasePress _ rfl
  · simp only [ECLPvtCurveCollection.getDynamicPropertyNative]
    split
    · rfl
    · simp only [List.map_nil, List.map_replicate, hz1, hz2, ite_self]
      rw [getDynamicPropertySI_empty_mix c property phase activeCell _ _
        (by rw [List.length_map])]

/-- Closed witness for C6: an empty and an all-zero mixing-ratio array give
the same gas viscosity values on the sample collection. -/
theorem C6_empty_mix_ratio_witness :
    sampleColl.getDynamicPropertyNative sampleCvt RawCurve.Viscosity
      ECLPhaseIndex.Vapour 0 [5] [] =
      sampleColl.getDynamicPropertyNative sampleCvt RawCurve.Viscosity
        ECLPhaseIndex.Vapour 0 [5]
        (List.replicate ([5] : List ℚ).length 0) :=
  (C6_empty_mix_ratio sampleColl sampleCvt RawCurve.Viscosity
    ECLPhaseIndex.Vapour 0 [5] (by norm_num [sampleCvt])
    (by norm_num [sampleCvt])).2

/-- Claim C7: absent `PVTNUM` data defaults every cell's region tag to `1`;
region resolution always computes `regionTag[cellIndex] - 1`; hence in the
default case every in-range cell resolves to region `0`. -/
theorem C7_default_region (n : ℕ) (activeCell : ℤ) (g o : Option PVTInterp)
    (un ui : UnitSystem) (uo : Option UnitSystem)
    (h0 : 0 ≤ activeCell) (hn : activeCell.toNat < n) :
    pvtnumVector [] n = List.replicate n 1 ∧
    (∀ (c : ECLPvtCurveCollection) (i : ℤ),
      c.regionID i = c.pvtnum_.getD (i % (2 : ℤ) ^ 64).toNat 0 - 1) ∧
    (ECLPvtCurveCollection.mk (pvtnumVector [] n) g o un ui uo).regionID
      activeCell = 0 := by
  refine ⟨by simp [pvtnumVector], fun c i => rfl, ?_⟩
  have hidx : (activeCell % (2 : ℤ) ^ 64).toNat < n := by
    have hP : (2 : ℤ) ^ 64 = 18446744073709551616 := by norm_num
    rw [hP]
    omega
  have hrw : (ECLPvtCurveCollection.mk (pvtnumVector [] n) g o un ui
      uo).pvtnum_ = List.replicate n 1 := by
    simp [pvtnumVector]
  unfold ECLPvtCurveCollection.regionID
  rw [hrw, List.getD_eq_getElem?_getD, List.getElem?_replicate, if_pos hidx]
  rfl

/-- Closed witness for C7: cell `3` of a ten-cell grid with no region data
resolves to region `0`. -/
theorem C7_default_region_witness :
    (ECLPvtCurveCollection.mk (pvtnumVector [] 10) none none 0 1
      none).regionID 3 = 0 :=
  (C7_default_region 10 3 none none 0 1 none (by decide) (by decide)).2.2

/-- Claim C8: with an output unit system configured, a curve kind outside the
three enumerators reaching the final conversion stage raises the
`Internal Logic Error` exception — a loud `.error`, distinct from the silent
empty results used for invalid requests — also through `getPvtCurve`. -/
theorem C8_unknown_curve_kind_error (c : ECLPvtCurveCollection) (cv : Cvt)
    (graph : List Graph) (curve : RawCurve) (phase : ECLPhaseIndex)
    (activeCell : ℤ) (u : UnitSystem)
    (hout : c.usys_output_ = some u)
    (hcurve : ¬ (curve = RawCurve.FVF ∨ curve = RawCurve.Viscosity ∨
      curve = RawCurve.SaturatedState)) :
    c.convertToOutputUnits cv graph curve phase =
      .error "Internal Logic Error" ∧
    (c.isValidRequest phase activeCell = true →
      c.getPvtCurve cv curve phase activeCell =
        .error "Internal Logic Error") := by
  push_neg at hcurve
  have key : ∀ g : List Graph,
      c.convertToOutputUnits cv g curve phase =
        .error "Internal Logic Error" := by
    intro g
    simp only [ECLPvtCurveCollection.convertToOutputUnits, hout]
    rw [if_neg hcurve.1, if_neg hcurve.2.1, if_neg hcurve.2.2]
  refine ⟨key graph, fun hval => ?_⟩
  simp only [ECLPvtCurveCollection.getPvtCurve, hval]
  rw [if_neg (by simp)]
  split <;> exact key _

/-- Closed witness for C8: the out-of-enumeration curve kind `7` makes the
conversion stage, and `getPvtCurve`, fail loudly on the sample collection. -/
theorem C8_unknown_curve_kind_error_witness :
    sampleColl.convertToOutputUnits sampleCvt [([1], [2])] 7
      ECLPhaseIndex.Liquid = .error "Internal Logic Error" ∧
    sampleColl.getPvtCurve sampleCvt 7 ECLPhaseIndex.Liquid 0 =
      .error "Internal Logic Error" :=
  ⟨(C8_unknown_curve_kind_error sampleColl sampleCvt [([1], [2])] 7
      ECLPhaseIndex.Liquid 0 2 rfl (by decide)).1,
    (C8_unknown_curve_kind_error sampleColl sampleCvt [([1], [2])] 7
      ECLPhaseIndex.Liquid 0 2 rfl (by decide)).2 (by decide)⟩

/-- Claim C9: with no output unit system configured, `convertToOutputUnits`
returns the curve unchanged before inspecting the curve kind, so `getPvtCurve`
succeeds with any `RawCurve` value — including one outside the three
enumerators — and never produces the internal-logic-error exception. -/
theorem C9_no_output_units_any_kind (c : ECLPvtCurveCollection) (cv : Cvt)
    (graph : List Graph) (curve : RawCurve) (phase : ECLPhaseIndex)
    (activeCell : ℤ) (hout : c.usys_output_ = none) :
    c.convertToOutputUnits cv graph curve phase = .ok graph ∧
    ∃ r, c.getPvtCurve cv curve phase activeCell = .ok r := by
  have key : ∀ g : List Graph,
      c.convertToOutputUnits cv g curve phase = .ok g := by
    intro g
    simp [ECLPvtCurveCollection.convertToOutputUnits, hout]
  refine ⟨key graph, ?_⟩
  simp only [ECLPvtCurveCollection.getPvtCurve]
  split
  · exact ⟨emptyFDGraph, rfl⟩
  · split
    · exact ⟨_, key _⟩
    · exact ⟨_, key _⟩

/-- Closed witness for C9: with the output unit system cleared, even the
out-of-enumeration curve kind `7` passes the conversion stage unchanged. -/
theorem C9_no_output_units_any_kind_witness :
    (sampleColl.setOutputUnits none).convertToOutputUnits sampleCvt
      [([1], [2])] 7 ECLPhaseIndex.Aqua = .ok [([1], [2])] :=
  (C9_no_output_units_any_kind (sampleColl.setOutputUnits none) sampleCvt
    [([1], [2])] 7 ECLPhaseIndex.Aqua 99 rfl).1

/-- Claim C10: a negative cell index, cast to the unsigned size type, compares
not-below any attainable cell count, so `isValidRequest` is false, every
public operation returns its empty result, and the region-tag vector is never
indexed with it. -/
theorem C10_negative_cell_rejected (c : ECLPvtCurveCollection) (cv : Cvt)
    (curve : RawCurve) (phase : ECLPhaseIndex) (activeCell : ℤ)
    (phasePress mixRatio : List ℚ)
    (hneg : activeCell < 0) (hlo : -(2 : ℤ) ^ 63 ≤ activeCell)
    (hlen : c.pvtnum_.length ≤ 2 ^ 63) :
    c.isValidRequest phase activeCell = false ∧
    c.getPvtCurve cv curve phase activeCell = .ok emptyFDGraph ∧
    c.getDynamicPropertySI curve phase activeCell phasePress mixRatio = [] ∧
    c.getDynamicPropertyNative cv curve phase activeCell phasePress
      mixRatio = [] := by
  have hval : c.isValidRequest phase activeCell = false := by
    apply isValidRequest_false_of
    refine Or.inr ?_
    have hP : (2 : ℤ) ^ 64 = 18446744073709551616 := by norm_num
    have hQ : -(2 : ℤ) ^ 63 = -9223372036854775808 := by norm_num
    have hN : (2 : ℕ) ^ 63 = 9223372036854775808 := by norm_num
    rw [hP]
    rw [hQ] at hlo
    rw [hN] at hlen
    omega
  exact ⟨hval, getPvtCurve_invalid c cv curve phase activeCell hval,
    getDynamicPropertySI_invalid c curve phase activeCell phasePress
      mixRatio hval,
    getDynamicPropertyNative_invalid c cv curve phase activeCell phasePress
      mixRatio hval⟩

/-- Closed witness for C10: cell index `-1` is rejected on the sample
collection and the dynamic SI query yields the empty array. -/
theorem C10_negative_cell_rejected_witness :
    sampleColl.isValidRequest ECLPhaseIndex.Liquid (-1) = false ∧
    sampleColl.getDynamicPropertySI RawCurve.FVF ECLPhaseIndex.Liquid (-1)
      [5] [] = [] := by
  have h := C10_negative_cell_rejected sampleColl sampleCvt RawCurve.FVF
    ECLPhaseIndex.Liquid (-1) [5] [] (by decide) (by decide) (by decide)
  exact ⟨h.1, h.2.2.1⟩

end OpmPvt
